import Mathlib

/-!
Verification model of the MappedFile component of commonlibrary_c_utils.

The implementation files (mapped_file.h / mapped_file.cpp) are not part of
the provided sources; only their unit tests
(base/test/unittest/common/utils_mapped_file_test.cpp) are.  The
definitions below are therefore a shallow embedding reconstructed from the
specification text, and wherever the unit tests pin down a concrete
behaviour (error codes, the size-adjustment formula, the fate of the file
descriptor across Unmap, the unmapped TurnNext step) the tests take
precedence, since they are repository code.

Offsets, sizes and addresses are modelled as Int (off_t is signed); the
platform page size is a positive parameter p.  A regular file is its
substantial length plus its byte content; the single target file of a
MappedFile is threaded through the operations as an Option File (none
means the file does not exist).
-/

/-- Error taxonomy of the mapped-file component. -/
inductive ErrCode where
  | ok
  | invalidParam
  | fileNotFound
  | invalidOperation
  | mapFailed
  | outOfRange
deriving DecidableEq

/-- Mapping mode flags: DEFAULT is all-false; CREATE_IF_ABSENT, PRIVATE and
READ_ONLY are the recognized bits (unknown bits are dropped before they
reach this representation). -/
structure MapMode where
  createIfAbsent : Bool
  privateMode : Bool
  readOnly : Bool
deriving DecidableEq

/-- MapMode::DEFAULT. -/
def defaultMode : MapMode := ⟨false, false, false⟩

/-- A regular file: substantial (on-disk) length and byte content.
Bytes at positions outside [0, len) are 0 by convention. -/
structure File where
  len : Int
  byteAt : Int → Int

/-- MappedFile::DEFAULT_LENGTH, the "whole file" sentinel size. -/
def DEFAULT_LENGTH : Int := -1

/-- Modelled from the spec: the state of one MappedFile instance
(mapped_file.h is missing from the sources).  regionFileOff / regionLen /
regionAddr describe the live OS mapping and are meaningful only while
isMapped is set; fd is the instance-owned descriptor (none when closed or
transferred). -/
structure MappedFile where
  path : String
  mode : MapMode
  offset : Int
  size : Int
  hint : Option Int
  fd : Option Int
  isNormed : Bool
  isMapped : Bool
  regionFileOff : Int
  regionLen : Int
  regionAddr : Int
deriving DecidableEq

/-- StartOffset(): first file offset of the usable view. -/
def MappedFile.startOffset (st : MappedFile) : Int := st.offset

/-- EndOffset(): last file offset of the usable view (inclusive). -/
def MappedFile.endOffset (st : MappedFile) : Int := st.offset + st.size - 1

/-- Begin(): start address of the usable view, nullptr (none) while unmapped. -/
def MappedFile.beginPtr (st : MappedFile) : Option Int :=
  if st.isMapped then some (st.regionAddr + (st.offset - st.regionFileOff)) else none

/-- End(): last valid address of the usable view, nullptr (none) while unmapped. -/
def MappedFile.endPtr (st : MappedFile) : Option Int :=
  if st.isMapped then
    some (st.regionAddr + (st.offset - st.regionFileOff) + st.size - 1)
  else none

/-- RegionStart(): start address of the full OS mapping. -/
def MappedFile.regionStartPtr (st : MappedFile) : Option Int :=
  if st.isMapped then some st.regionAddr else none

/-- RegionEnd(): last address of the full OS mapping. -/
def MappedFile.regionEndPtr (st : MappedFile) : Option Int :=
  if st.isMapped then some (st.regionAddr + st.regionLen - 1) else none

/-- Round n up to the next multiple of the page size p. -/
def pageCeil (p n : Int) : Int := ((n + p - 1) / p) * p

/-- State of an instance whose normalization failed: flags cleared, no
descriptor and no mapping retained, requested parameters kept. -/
def inertOf (st : MappedFile) : MappedFile :=
  { st with isNormed := false, isMapped := false, fd := none,
            regionFileOff := 0, regionLen := 0, regionAddr := 0 }

/-- The default (moved-from) state. -/
def defaultState : MappedFile :=
  { path := "", mode := defaultMode, offset := 0, size := DEFAULT_LENGTH,
    hint := none, fd := none, isNormed := false, isMapped := false,
    regionFileOff := 0, regionLen := 0, regionAddr := 0 }

/-- Abstract base address at which the OS places mappings in this model. -/
def mmapBase : Int := 1099511627776

/-- Modelled from the spec: the size requested of Normalize, with the
DEFAULT_LENGTH sentinel expanded to the rest of the file (one page when
that is empty). -/
def reqSize (p off sz flen : Int) : Int :=
  if sz = DEFAULT_LENGTH then (if flen - off ≤ 0 then p else flen - off) else sz

/-- The adjusted view size: the requested size, clamped to the page
boundary covering the current file size, the formula asserted by
testAutoAdjustedSize001/002. -/
def adjSize (p off sz flen : Int) : Int :=
  min (reqSize p off sz flen) ((flen / p + 1) * p - off)

def normSize (p : Int) (st : MappedFile) (f : File) :
    ErrCode × MappedFile × Option File :=
  if f.len < st.offset then (ErrCode.invalidParam, inertOf st, some f)
  else
    (ErrCode.ok,
     { st with size := adjSize p st.offset st.size f.len,
               isNormed := true, fd := some 3 },
     some f)

/-- Modelled from the spec: MappedFile::Normalize (mapped_file.cpp is
missing from the sources).  Rejects nonsensical sizes and offsets that are
not non-negative page multiples; opens the file, creating it (zero-filled,
ftruncated to offset + size, or to one page for a DEFAULT_LENGTH request)
when absent and CREATE_IF_ABSENT is set, failing otherwise; then validates
the offset against the file size and adjusts the size.  Every failure
leaves the instance inert. -/
def normalizeOp (p : Int) (st : MappedFile) (fs : Option File) :
    ErrCode × MappedFile × Option File :=
  if st.size ≠ DEFAULT_LENGTH ∧ st.size ≤ 0 then (ErrCode.invalidParam, inertOf st, fs)
  else if st.offset < 0 ∨ st.offset % p ≠ 0 then (ErrCode.invalidParam, inertOf st, fs)
  else
    match fs with
    | none =>
      if st.mode.createIfAbsent then
        let newLen : Int := if st.size = DEFAULT_LENGTH then p else st.offset + st.size
        normSize p st { len := newLen, byteAt := fun _ => 0 }
      else (ErrCode.fileNotFound, inertOf st, none)
    | some f => normSize p st f

/-- Establish the OS mapping for normalized parameters: the region starts
at the (page-aligned) offset and spans the view size rounded up to whole
pages; the view starts at the region start plus the intra-region shift. -/
def establish (p : Int) (st : MappedFile) : MappedFile :=
  { st with isMapped := true,
            regionFileOff := st.offset,
            regionLen := pageCeil p st.size,
            regionAddr := mmapBase + st.offset }

/-- Modelled from the spec: MappedFile::Map (mapped_file.cpp is missing
from the sources).  A no-op success when already mapped; maps directly
when already normalized; otherwise runs Normalize first and fails exactly
when it does. -/
def mapOp (p : Int) (st : MappedFile) (fs : Option File) :
    ErrCode × MappedFile × Option File :=
  if st.isMapped then (ErrCode.ok, st, fs)
  else if st.isNormed then (ErrCode.ok, establish p st, fs)
  else
    let r := normalizeOp p st fs
    if r.1 = ErrCode.ok then (ErrCode.ok, establish p r.2.1, r.2.2) else r

/-- Modelled from the spec: the MappedFile constructor, which stores the
parameters and auto-maps. -/
def construct (p : Int) (path : String) (mode : MapMode) (offset size : Int)
    (hint : Option Int) (fs : Option File) : MappedFile × Option File :=
  let st0 : MappedFile :=
    { path := path, mode := mode, offset := offset, size := size, hint := hint,
      fd := none, isNormed := false, isMapped := false,
      regionFileOff := 0, regionLen := 0, regionAddr := 0 }
  let r := mapOp p st0 fs
  (r.2.1, r.2.2)

/-- Modelled from the spec: MappedFile::Unmap (mapped_file.cpp is missing
from the sources).  Releases the mapping and clears the region bounds,
keeping the normalized parameters; a second call is a no-op success.  The
file descriptor is kept open: testTurnNext002/003 ftruncate through
GetFd() right after Unmap(). -/
def unmap (st : MappedFile) : ErrCode × MappedFile :=
  if st.isMapped then
    (ErrCode.ok, { st with isMapped := false,
                           regionFileOff := 0, regionLen := 0, regionAddr := 0 })
  else (ErrCode.ok, st)

/-- Modelled from the spec: the MappedFile destructor, which unmaps and
closes the owned descriptor. -/
def destroy (st : MappedFile) : MappedFile :=
  { (unmap st).2 with fd := none }

/-- Modelled from the spec: MappedFile move construction.  The destination
takes the whole state; the source is reset to the default state. -/
def moveConstruct (src : MappedFile) : MappedFile × MappedFile :=
  (defaultState, src)

/-- Modelled from the spec: MappedFile move assignment.  The destination
releases its own resources, then takes the whole source state; the source
is reset to the default state. -/
def moveAssign (dst src : MappedFile) : MappedFile × MappedFile :=
  let _ := destroy dst
  (defaultState, src)

/-- Set the substantial length of a file (ftruncate): shrinking drops
bytes, growing zero-fills. -/
def setLen (f : File) (n : Int) : File :=
  { len := n, byteAt := fun j => if j < f.len ∧ j < n then f.byteAt j else 0 }

/-- Modelled from the spec: MappedFile::Resize(newSize, syncFileSize)
(mapped_file.cpp is missing from the sources).  Unmap, change the
requested size, renormalize and map as one transaction; when syncFileSize
is set the on-disk length is first forced to offset + newSize. -/
def resize (p : Int) (st : MappedFile) (fs : Option File) (newSize : Int)
    (syncFileSize : Bool) : ErrCode × MappedFile × Option File :=
  let st1 := (unmap st).2
  let fs1 := if syncFileSize then
               match fs with
               | some f => some (setLen f (st1.offset + newSize))
               | none => none
             else fs
  mapOp p { st1 with size := newSize, isNormed := false } fs1

/-- Modelled from the spec: MappedFile::TurnNext (mapped_file.cpp is
missing from the sources).  Never-normalized instances fail fatally with
INVALID_OPERATION.  When mapped: if the next window would start at or past
the substantial file size the call fails, returning ERR_INVALID_OPERATION
and leaving the state unchanged (the code asserted by testTurnNext004);
otherwise the window advances to start right after the previous one,
staying inside the current region when it fits, clamped to the region end
when only part fits, and remapping a fresh page-aligned region right after
the previous window when the region is exhausted.  When normalized but
unmapped the instance advances by one whole page and remaps, keeping its
size (the behaviour asserted by testTurnNext002). -/
def turnNext (p : Int) (st : MappedFile) (fs : Option File) : ErrCode × MappedFile :=
  if ¬ st.isNormed then (ErrCode.invalidOperation, st)
  else
    match fs with
    | none => (ErrCode.fileNotFound, st)
    | some f =>
      if st.isMapped then
        let newStart := st.offset + st.size
        if f.len ≤ newStart then (ErrCode.invalidOperation, st)
        else
          let regionEndOff := st.regionFileOff + st.regionLen - 1
          if newStart + st.size - 1 ≤ regionEndOff then
            (ErrCode.ok, { st with offset := newStart })
          else if newStart ≤ regionEndOff then
            (ErrCode.ok, { st with offset := newStart,
                                   size := regionEndOff - newStart + 1 })
          else
            (ErrCode.ok, establish p { st with offset := newStart })
      else
        let newOff := st.offset + p
        if f.len ≤ newOff then (ErrCode.invalidOperation, st)
        else (ErrCode.ok, establish p { st with offset := newOff })

/-- Modelled from the spec: a byte store through the mapped view at view
index i.  It reaches the file exactly for shared writable mappings at
positions inside the substantial file size; stores past the true EOF stay
in the mapped page and are not persisted. -/
def writeThrough (st : MappedFile) (fs : Option File) (i b : Int) : Option File :=
  match fs with
  | none => none
  | some f =>
    if st.isMapped = true ∧ st.mode.privateMode = false ∧ st.mode.readOnly = false
        ∧ 0 ≤ i ∧ i < st.size ∧ st.offset + i < f.len then
      some { len := f.len,
             byteAt := fun j => if j = st.offset + i then b else f.byteAt j }
    else some f

/-- States (with their file) reachable through the public interface,
starting from a constructor call. -/
inductive Reachable (p : Int) : MappedFile → Option File → Prop where
  | start (path : String) (mode : MapMode) (off sz : Int) (hint : Option Int)
      (fs : Option File) :
      Reachable p (construct p path mode off sz hint fs).1
        (construct p path mode off sz hint fs).2
  | domap (st : MappedFile) (fs : Option File) :
      Reachable p st fs → Reachable p (mapOp p st fs).2.1 (mapOp p st fs).2.2
  | dounmap (st : MappedFile) (fs : Option File) :
      Reachable p st fs → Reachable p (unmap st).2 fs
  | doresize (st : MappedFile) (fs : Option File) (n : Int) (b : Bool) :
      Reachable p st fs →
      Reachable p (resize p st fs n b).2.1 (resize p st fs n b).2.2
  | doturn (st : MappedFile) (fs : Option File) :
      Reachable p st fs → Reachable p (turnNext p st fs).2 fs
  | dowrite (st : MappedFile) (fs : Option File) (i b : Int) :
      Reachable p st fs → Reachable p st (writeThrough st fs i b)
  | domovesrc (st : MappedFile) (fs : Option File) :
      Reachable p st fs → Reachable p (moveConstruct st).1 fs
  | dodestroy (st : MappedFile) (fs : Option File) :
      Reachable p st fs → Reachable p (destroy st) fs

/-! Concrete fixtures mirroring the unit tests (page size 4096). -/

/-- A 23-byte file, the length of the test content string of the
TurnNext tests. -/
def file23 : File := { len := 23, byteAt := fun _ => 0 }

/-- A 22-byte file, the length of the test content string of the
auto-adjusted-size tests. -/
def file22 : File := { len := 22, byteAt := fun _ => 0 }

/-- A five-page file. -/
def file20480 : File := { len := 20480, byteAt := fun _ => 0 }

/-- A default mapping of the 23-byte file. -/
def st23 : MappedFile :=
  (construct 4096 "f" defaultMode 0 DEFAULT_LENGTH none (some file23)).1

/-- A two-page mapping of the five-page file. -/
def st2p : MappedFile :=
  (construct 4096 "f" defaultMode 0 8192 none (some file20480)).1

/-- The normalized-but-unmapped 23-byte fixture. -/
def stU : MappedFile := (unmap st23).2

/-! Claim theorems. -/

/-- Claim C1: for every successful TurnNext() call on a mapped instance,
the StartOffset() observed after the call equals the EndOffset() observed
before it plus 1, whether the advance stays inside the current
page-aligned region (fully or clamped to the region end) or triggers a
remap of a fresh region.  Applied after each call of a sequence this is
exactly the sequencing property. -/
theorem turnNext_sequencing (p : Int) (st : MappedFile) (fs : Option File)
    (hm : st.isMapped = true) (hok : (turnNext p st fs).1 = ErrCode.ok) :
    ((turnNext p st fs).2).startOffset = st.endOffset + 1 := by
  by_cases hn : st.isNormed
  · cases fs with
    | none => simp [turnNext, hn] at hok
    | some f =>
      simp only [turnNext, hn, hm] at hok ⊢
      split_ifs at hok ⊢ <;>
        simp_all [MappedFile.startOffset, MappedFile.endOffset, establish]
  · simp [turnNext, hn] at hok

/-- Witness for C1 at the two-page fixture, where TurnNext() succeeds by
remapping. -/
theorem turnNext_sequencing_witness :
    st2p.isMapped = true ∧ (turnNext 4096 st2p (some file20480)).1 = ErrCode.ok
    ∧ ((turnNext 4096 st2p (some file20480)).2).startOffset = st2p.endOffset + 1 :=
  ⟨by decide, by decide,
   turnNext_sequencing 4096 st2p (some file20480) (by decide) (by decide)⟩

/-- Claim C7 (amended): on a mapped, normalized instance, a TurnNext()
whose next window would start at or beyond the substantial file size fails
non-fatally: it returns ERR_INVALID_OPERATION — the same code used for
never-normalized instances, not a distinct OUT_OF_RANGE code — and leaves
the state unchanged, as testTurnNext004 asserts. -/
theorem turnNext_no_room (p : Int) (st : MappedFile) (f : File)
    (hm : st.isMapped = true) (hn : st.isNormed = true)
    (hfull : f.len ≤ st.offset + st.size) :
    turnNext p st (some f) = (ErrCode.invalidOperation, st) := by
  simp [turnNext, hn, hm, hfull]

/-- Counterexample to claim C7 as stated: the default mapping of the
23-byte test file (the configuration of testTurnNext004) is mapped and
normalized, yet the failing TurnNext() returns ERR_INVALID_OPERATION, not
OUT_OF_RANGE. -/
theorem turnNext_no_room_counterexample :
    st23.isMapped = true ∧ st23.isNormed = true
    ∧ turnNext 4096 st23 (some file23) = (ErrCode.invalidOperation, st23)
    ∧ ErrCode.invalidOperation ≠ ErrCode.outOfRange :=
  ⟨by decide, by decide, rfl, by decide⟩

/-- Witness for C7 at the 23-byte fixture. -/
theorem turnNext_no_room_witness :
    (st23.isMapped = true ∧ st23.isNormed = true
      ∧ file23.len ≤ st23.offset + st23.size)
    ∧ turnNext 4096 st23 (some file23) = (ErrCode.invalidOperation, st23) :=
  ⟨⟨by decide, by decide, by decide⟩,
   turnNext_no_room 4096 st23 file23 (by decide) (by decide) (by decide)⟩

/-- Counterexample to claim C9 as stated: Unmap() on the mapped 23-byte
fixture succeeds but leaves the instance-owned descriptor open — no move
happened, yet the descriptor is not closed (testTurnNext002/003 ftruncate
through GetFd() right after Unmap()). -/
theorem unmap_keeps_fd_counterexample :
    (unmap st23).1 = ErrCode.ok ∧ st23.fd = some 3
    ∧ (unmap st23).2.fd = some 3 ∧ ¬ (unmap st23).2.fd = none := by
  refine ⟨rfl, by decide, by decide, by decide⟩

/-- Claim C9 (amended): Unmap() never closes the owned descriptor — it is
kept open for later Map()/TurnNext() calls through the stored fd; the
descriptor is closed by the destructor, and a move resets the source
descriptor to none while the destination takes it. -/
theorem fd_lifecycle (st : MappedFile) :
    (unmap st).2.fd = st.fd ∧ (destroy st).fd = none
    ∧ (moveConstruct st).1.fd = none ∧ (moveConstruct st).2.fd = st.fd := by
  unfold unmap destroy moveConstruct defaultState
  split_ifs <;> simp

/-- Claim C10 (amended): when a mapped TurnNext() finds the current region
exhausted and succeeds, it remaps a fresh region that starts exactly at
the new window (Begin() == RegionStart()) and keeps Size() unchanged, but
the fresh region spans Size() rounded up to whole pages — exactly one page
only when Size() fits in one page, not in general. -/
theorem turnNext_remap_fresh (p : Int) (st : MappedFile) (f : File)
    (hm : st.isMapped = true) (hn : st.isNormed = true) (hsz : 0 < st.size)
    (hroom : st.offset + st.size < f.len)
    (hexh : st.regionFileOff + st.regionLen - 1 < st.offset + st.size) :
    (turnNext p st (some f)).1 = ErrCode.ok
    ∧ ((turnNext p st (some f)).2).beginPtr = ((turnNext p st (some f)).2).regionStartPtr
    ∧ ((turnNext p st (some f)).2).regionLen = pageCeil p st.size
    ∧ ((turnNext p st (some f)).2).size = st.size := by
  have h1 : ¬ (f.len ≤ st.offset + st.size) := by omega
  have h2 : ¬ (st.offset + st.size + st.size - 1 ≤ st.regionFileOff + st.regionLen - 1) := by
    omega
  have h3 : ¬ (st.offset + st.size ≤ st.regionFileOff + st.regionLen - 1) := by omega
  simp [turnNext, hn, hm, h1, h2, h3, establish, MappedFile.beginPtr,
        MappedFile.regionStartPtr]

/-- Witness for the amended C10 at the two-page fixture. -/
theorem turnNext_remap_fresh_witness :
    (st2p.isMapped = true ∧ st2p.isNormed = true ∧ 0 < st2p.size
      ∧ st2p.offset + st2p.size < file20480.len
      ∧ st2p.regionFileOff + st2p.regionLen - 1 < st2p.offset + st2p.size)
    ∧ (turnNext 4096 st2p (some file20480)).1 = ErrCode.ok
    ∧ ((turnNext 4096 st2p (some file20480)).2).beginPtr
        = ((turnNext 4096 st2p (some file20480)).2).regionStartPtr
    ∧ ((turnNext 4096 st2p (some file20480)).2).regionLen = pageCeil 4096 st2p.size
    ∧ ((turnNext 4096 st2p (some file20480)).2).size = st2p.size :=
  ⟨⟨by decide, by decide, by decide, by decide, by decide⟩,
   turnNext_remap_fresh 4096 st2p file20480 (by decide) (by decide) (by decide)
     (by decide) (by decide)⟩

/-- Counterexample to claim C10 as stated: a TurnNext() that exhausts the
region of a two-page window remaps a region spanning two pages, not
exactly one page. -/
theorem turnNext_remap_two_pages_counterexample :
    st2p.regionFileOff + st2p.regionLen - 1 < st2p.offset + st2p.size
    ∧ (turnNext 4096 st2p (some file20480)).1 = ErrCode.ok
    ∧ (turnNext 4096 st2p (some file20480)).2.isMapped = true
    ∧ ((turnNext 4096 st2p (some file20480)).2.regionEndPtr.getD 0
        - (turnNext 4096 st2p (some file20480)).2.regionStartPtr.getD 0 + 1 = 8192)
    ∧ ¬ ((turnNext 4096 st2p (some file20480)).2.regionEndPtr.getD 0
        - (turnNext 4096 st2p (some file20480)).2.regionStartPtr.getD 0 + 1 = 4096) := by
  decide


/-- Claim C6: Unmap() on a mapped instance returns OK, nulls Begin() and
End(), clears mapped while normalized stays set; a second Unmap() right
after is a no-op that also succeeds; and a subsequent Map() succeeds
through the already-normalized branch — normalization is not re-run, the
stored offset and size are restored unchanged. -/
theorem unmap_idempotent_remap (p : Int) (st : MappedFile) (fs : Option File)
    (hm : st.isMapped = true) (hn : st.isNormed = true) :
    (unmap st).1 = ErrCode.ok
    ∧ (unmap st).2.isMapped = false
    ∧ ((unmap st).2).beginPtr = none
    ∧ ((unmap st).2).endPtr = none
    ∧ (unmap st).2.isNormed = true
    ∧ unmap (unmap st).2 = (ErrCode.ok, (unmap st).2)
    ∧ mapOp p (unmap st).2 fs = (ErrCode.ok, establish p (unmap st).2, fs)
    ∧ (mapOp p (unmap st).2 fs).2.1.offset = st.offset
    ∧ (mapOp p (unmap st).2 fs).2.1.size = st.size
    ∧ (mapOp p (unmap st).2 fs).2.1.isMapped = true := by
  simp [unmap, mapOp, hm, hn, MappedFile.beginPtr, MappedFile.endPtr, establish]

/-- Witness for C6 at the 23-byte fixture. -/
theorem unmap_idempotent_remap_witness :
    (st23.isMapped = true ∧ st23.isNormed = true)
    ∧ (unmap st23).1 = ErrCode.ok
    ∧ (unmap st23).2.isMapped = false
    ∧ ((unmap st23).2).beginPtr = none
    ∧ ((unmap st23).2).endPtr = none
    ∧ (unmap st23).2.isNormed = true
    ∧ unmap (unmap st23).2 = (ErrCode.ok, (unmap st23).2)
    ∧ mapOp 4096 (unmap st23).2 (some file23)
        = (ErrCode.ok, establish 4096 (unmap st23).2, some file23)
    ∧ (mapOp 4096 (unmap st23).2 (some file23)).2.1.offset = st23.offset
    ∧ (mapOp 4096 (unmap st23).2 (some file23)).2.1.size = st23.size
    ∧ (mapOp 4096 (unmap st23).2 (some file23)).2.1.isMapped = true :=
  ⟨⟨by decide, by decide⟩,
   unmap_idempotent_remap 4096 st23 (some file23) (by decide) (by decide)⟩

/-- Claim C5: after a move (construction or assignment) the source is the
default state — empty path, DEFAULT_LENGTH size, offset 0, DEFAULT mode,
null hint, unmapped, null Begin() — while the destination is exactly the
pre-move source state (Begin() identity included); a source that was
normalized but unmapped at move time yields a destination with
normalized set, mapped clear, on which Map() succeeds again. -/
theorem move_semantics (src dst : MappedFile) (p : Int) (fs : Option File) :
    ((moveConstruct src).1 = defaultState ∧ (moveAssign dst src).1 = defaultState
      ∧ (moveConstruct src).2 = src ∧ (moveAssign dst src).2 = src)
    ∧ (defaultState.path = "" ∧ defaultState.size = DEFAULT_LENGTH
       ∧ defaultState.offset = 0 ∧ defaultState.mode = defaultMode
       ∧ defaultState.hint = none ∧ defaultState.isMapped = false
       ∧ defaultState.beginPtr = none)
    ∧ ((moveConstruct src).2).beginPtr = src.beginPtr
    ∧ (src.isMapped = false → src.isNormed = true →
        (moveConstruct src).2.isNormed = true ∧ (moveConstruct src).2.isMapped = false
        ∧ (mapOp p (moveConstruct src).2 fs).1 = ErrCode.ok) := by
  refine ⟨⟨rfl, rfl, rfl, rfl⟩,
          ⟨rfl, rfl, rfl, rfl, rfl, rfl, by simp [defaultState, MappedFile.beginPtr]⟩,
          rfl, ?_⟩
  intro hu hn
  exact ⟨hn, hu, by simp [moveConstruct, mapOp, hu, hn]⟩

/-- Witness for C5: moving a normalized-but-unmapped source leaves a
destination that is normalized, unmapped and re-mappable. -/
theorem move_semantics_witness :
    (stU.isMapped = false ∧ stU.isNormed = true)
    ∧ ((moveConstruct stU).2.isNormed = true ∧ (moveConstruct stU).2.isMapped = false
       ∧ (mapOp 4096 (moveConstruct stU).2 (some file23)).1 = ErrCode.ok) :=
  ⟨⟨by decide, by decide⟩,
   (move_semantics stU defaultState 4096 (some file23)).2.2.2 (by decide) (by decide)⟩

/-- Every failing branch of Normalize returns the inert state and the
untouched file. -/
theorem normalizeOp_fail (p : Int) (st : MappedFile) (fs : Option File)
    (h : (st.offset < 0 ∨ st.offset % p ≠ 0)
       ∨ (∃ f, fs = some f ∧ f.len < st.offset)
       ∨ (fs = none ∧ st.mode.createIfAbsent = false)) :
    (normalizeOp p st fs).1 ≠ ErrCode.ok
    ∧ (normalizeOp p st fs).2.1 = inertOf st
    ∧ (normalizeOp p st fs).2.2 = fs := by
  by_cases hs : (st.size ≠ DEFAULT_LENGTH ∧ st.size ≤ 0)
  · simp only [normalizeOp]
    rw [if_pos hs]
    exact ⟨(fun hcon => nomatch hcon), rfl, rfl⟩
  · by_cases h1 : (st.offset < 0 ∨ st.offset % p ≠ 0)
    · simp only [normalizeOp]
      rw [if_neg hs, if_pos h1]
      exact ⟨(fun hcon => nomatch hcon), rfl, rfl⟩
    · rcases h with h1' | ⟨f, hf, hlen⟩ | ⟨hfn, hc⟩
      · exact absurd h1' h1
      · subst hf
        simp only [normalizeOp, normSize]
        rw [if_neg hs, if_neg h1, if_pos hlen]
        exact ⟨(fun hcon => nomatch hcon), rfl, rfl⟩
      · subst hfn
        simp only [normalizeOp]
        rw [if_neg hs, if_neg h1, if_neg (by simp [hc])]
        exact ⟨(fun hcon => nomatch hcon), rfl, rfl⟩

/-- Map reduces to the failed Normalize result when normalization fails. -/
theorem mapOp_of_norm_fail (p : Int) (st : MappedFile) (fs : Option File)
    (hm : st.isMapped = false) (hn : st.isNormed = false)
    (hne : (normalizeOp p st fs).1 ≠ ErrCode.ok) :
    mapOp p st fs = normalizeOp p st fs := by
  simp [mapOp, hm, hn, hne]

/-- Claim C3: a construction whose normalization fails — offset not a
non-negative multiple of the page size, offset beyond the substantial
file size, or absent file without CREATE_IF_ABSENT — leaves the instance
fully inert: not normalized, not mapped, null Begin(), no descriptor, and
the file untouched. -/
theorem construct_failure_inert (p : Int) (path : String) (mode : MapMode)
    (off sz : Int) (hint : Option Int) (fs : Option File)
    (h : (off < 0 ∨ off % p ≠ 0)
       ∨ (∃ f, fs = some f ∧ f.len < off)
       ∨ (fs = none ∧ mode.createIfAbsent = false)) :
    (construct p path mode off sz hint fs).1.isNormed = false
    ∧ (construct p path mode off sz hint fs).1.isMapped = false
    ∧ ((construct p path mode off sz hint fs).1).beginPtr = none
    ∧ (construct p path mode off sz hint fs).1.fd = none
    ∧ (construct p path mode off sz hint fs).2 = fs := by
  obtain ⟨hne, hst, hfs⟩ := normalizeOp_fail p
    { path := path, mode := mode, offset := off, size := sz, hint := hint,
      fd := none, isNormed := false, isMapped := false,
      regionFileOff := 0, regionLen := 0, regionAddr := 0 } fs h
  simp only [construct]
  rw [mapOp_of_norm_fail p _ fs rfl rfl hne, hst, hfs]
  simp [inertOf, MappedFile.beginPtr]

/-- Witness for C3 with the non-page-multiple offset of testInvalidMap001. -/
theorem construct_failure_inert_witness :
    (((100:Int) < 0 ∨ (100:Int) % 4096 ≠ 0)
      ∨ (∃ f, some file23 = some f ∧ f.len < 100)
      ∨ (some file23 = (none : Option File) ∧ defaultMode.createIfAbsent = false))
    ∧ (construct 4096 "f" defaultMode 100 DEFAULT_LENGTH none (some file23)).1.isNormed = false
    ∧ (construct 4096 "f" defaultMode 100 DEFAULT_LENGTH none (some file23)).1.isMapped = false
    ∧ ((construct 4096 "f" defaultMode 100 DEFAULT_LENGTH none (some file23)).1).beginPtr = none
    ∧ (construct 4096 "f" defaultMode 100 DEFAULT_LENGTH none (some file23)).1.fd = none
    ∧ (construct 4096 "f" defaultMode 100 DEFAULT_LENGTH none (some file23)).2 = some file23 :=
  ⟨Or.inl (by decide),
   construct_failure_inert 4096 "f" defaultMode 100 DEFAULT_LENGTH none (some file23)
     (Or.inl (by decide))⟩

/-- A region length produced by rounding up to whole pages is a multiple
of the page size. -/
theorem pageCeil_emod (p n : Int) : pageCeil p n % p = 0 :=
  Int.mul_emod_left _ _

/-- Normalize never sets the mapped flag. -/
theorem normalizeOp_isMapped (p : Int) (st : MappedFile) (fs : Option File)
    (hm : st.isMapped = false) :
    (normalizeOp p st fs).2.1.isMapped = false := by
  cases fs with
  | none =>
    simp only [normalizeOp, normSize]
    split_ifs <;> simp [inertOf, hm]
  | some f =>
    simp only [normalizeOp, normSize]
    split_ifs <;> simp [inertOf, hm]

/-- Map preserves the page-multiple region length. -/
theorem mapOp_aligned (p : Int) (st : MappedFile) (fs : Option File)
    (ih : st.isMapped = true → st.regionLen % p = 0)
    (hm : (mapOp p st fs).2.1.isMapped = true) :
    (mapOp p st fs).2.1.regionLen % p = 0 := by
  simp only [mapOp] at hm ⊢
  split_ifs at hm ⊢ with h1 h2 h3
  · exact ih h1
  · simp [establish, pageCeil_emod]
  · simp [establish, pageCeil_emod]
  · have hfalse := normalizeOp_isMapped p st fs (by simpa using h1)
    rw [hfalse] at hm
    cases hm

/-- TurnNext preserves the page-multiple region length. -/
theorem turnNext_aligned (p : Int) (st : MappedFile) (fs : Option File)
    (ih : st.isMapped = true → st.regionLen % p = 0)
    (hm : (turnNext p st fs).2.isMapped = true) :
    (turnNext p st fs).2.regionLen % p = 0 := by
  cases fs with
  | none =>
    simp only [turnNext] at hm ⊢
    split_ifs at hm ⊢ <;> exact ih hm
  | some f =>
    simp only [turnNext] at hm ⊢
    split_ifs at hm ⊢ <;>
      first
        | exact ih hm
        | simp [establish, pageCeil_emod]

/-- Unmap leaves the instance unmapped. -/
theorem unmap_isMapped (st : MappedFile) : ((unmap st).2).isMapped = false := by
  unfold unmap
  split_ifs with h <;> simp_all

/-- Resize establishes a page-multiple region length. -/
theorem resize_aligned (p : Int) (st : MappedFile) (fs : Option File) (n : Int)
    (b : Bool) (hm : (resize p st fs n b).2.1.isMapped = true) :
    (resize p st fs n b).2.1.regionLen % p = 0 := by
  simp only [resize] at hm ⊢
  exact mapOp_aligned p _ _
    (fun hcon => absurd hcon (by simp [unmap_isMapped st])) hm

/-- A freshly constructed instance has a page-multiple region length. -/
theorem construct_aligned (p : Int) (path : String) (mode : MapMode)
    (off sz : Int) (hint : Option Int) (fs : Option File)
    (hm : (construct p path mode off sz hint fs).1.isMapped = true) :
    (construct p path mode off sz hint fs).1.regionLen % p = 0 := by
  simp only [construct] at hm ⊢
  exact mapOp_aligned p _ _ (fun hcon => nomatch hcon) hm

/-- Every state reachable through the public interface keeps a
page-multiple region length while mapped. -/
theorem aligned_of_reachable (p : Int) (st : MappedFile) (fs : Option File)
    (hr : Reachable p st fs) : st.isMapped = true → st.regionLen % p = 0 := by
  induction hr with
  | start path mode off sz hint fs0 =>
    exact fun hm => construct_aligned p path mode off sz hint fs0 hm
  | domap st0 fs0 _ ih => exact fun hm => mapOp_aligned p st0 fs0 ih hm
  | dounmap st0 fs0 _ ih =>
    intro hm
    rw [unmap_isMapped st0] at hm
    cases hm
  | doresize st0 fs0 n b _ ih => exact fun hm => resize_aligned p st0 fs0 n b hm
  | doturn st0 fs0 _ ih => exact fun hm => turnNext_aligned p st0 fs0 ih hm
  | dowrite st0 fs0 i b _ ih => exact ih
  | domovesrc st0 fs0 _ ih =>
    intro hm
    exact absurd hm (by simp [moveConstruct, defaultState])
  | dodestroy st0 fs0 _ ih =>
    intro hm
    have hd : (destroy st0).isMapped = false := by
      simp only [destroy]
      exact unmap_isMapped st0
    rw [hd] at hm
    cases hm

/-- Claim C8: for every mapping reachable through the public interface —
initial maps, remaps after Unmap or Resize, and the fresh regions mapped
by TurnNext — the full OS region satisfies
(RegionEnd() - RegionStart() + 1) % PageSize() == 0. -/
theorem region_alignment (p : Int) (st : MappedFile) (fs : Option File)
    (hr : Reachable p st fs) (a b : Int)
    (ha : st.regionStartPtr = some a) (hb : st.regionEndPtr = some b) :
    (b - a + 1) % p = 0 := by
  have hm : st.isMapped = true := by
    by_contra hc
    simp [MappedFile.regionStartPtr, hc] at ha
  have hlen := aligned_of_reachable p st fs hr hm
  simp only [MappedFile.regionStartPtr, MappedFile.regionEndPtr, hm, if_true,
             Option.some_inj] at ha hb
  have hba : b - a + 1 = st.regionLen := by omega
  rw [hba]
  exact hlen

/-- Witness for C8 at the freshly constructed 23-byte fixture, whose
region is exactly one page. -/
theorem region_alignment_witness :
    (st23.regionStartPtr = some 1099511627776
      ∧ st23.regionEndPtr = some 1099511631871)
    ∧ (1099511631871 - 1099511627776 + 1) % (4096:Int) = 0 :=
  ⟨⟨by decide, by decide⟩,
   region_alignment 4096 st23
     (construct 4096 "f" defaultMode 0 DEFAULT_LENGTH none (some file23)).2
     (Reachable.start "f" defaultMode 0 DEFAULT_LENGTH none (some file23))
     1099511627776 1099511631871 (by decide) (by decide)⟩

/-- Claim C2 (amended): for a valid construction (offset a non-negative
page multiple not beyond the file size, positive requested size s), the
map succeeds; when off + s reaches past the page boundary covering the
current file size the view size is clamped DOWN to
(fileSize / PageSize + 1) * PageSize - offset — strictly less than s,
never more — and otherwise the requested s is kept unchanged.  The clamp
never makes the construction fail. -/
theorem size_adjust (p : Int) (path : String) (mode : MapMode) (off s : Int)
    (hint : Option Int) (f : File)
    (hoff0 : 0 ≤ off) (hal : off % p = 0) (hle : off ≤ f.len) (hs : 0 < s) :
    (construct p path mode off s hint (some f)).1.isMapped = true
    ∧ ((f.len / p + 1) * p - off < s →
        (construct p path mode off s hint (some f)).1.size
            = (f.len / p + 1) * p - off
        ∧ (construct p path mode off s hint (some f)).1.size < s)
    ∧ (s ≤ (f.len / p + 1) * p - off →
        (construct p path mode off s hint (some f)).1.size = s) := by
  have hd : p ∣ off := Int.dvd_of_emod_eq_zero hal
  have h2 : ¬ (f.len < off) := not_lt.mpr hle
  have hsle : ¬ (s ≤ 0) := not_le.mpr hs
  have hoffneg : ¬ (off < 0) := not_lt.mpr hoff0
  have hsd : ¬ (s = DEFAULT_LENGTH) := by
    simp only [DEFAULT_LENGTH]
    omega
  have hmapped : (construct p path mode off s hint (some f)).1.isMapped = true := by
    simp [construct, mapOp, normalizeOp, normSize, establish, h2, hsle, hd, hoffneg]
  have hsize : (construct p path mode off s hint (some f)).1.size
      = adjSize p off s f.len := by
    simp [construct, mapOp, normalizeOp, normSize, establish, h2, hsle, hd, hoffneg]
  have hadj : adjSize p off s f.len = min s ((f.len / p + 1) * p - off) := by
    simp [adjSize, reqSize, hsd]
  refine ⟨hmapped, fun hclamp => ⟨?_, ?_⟩, fun hno => ?_⟩
  · rw [hsize, hadj]
    exact min_eq_right hclamp.le
  · rw [hsize, hadj]
    omega
  · rw [hsize, hadj]
    exact min_eq_left hno

/-- Witness for the amended C2 at the testAutoAdjustedSize001
configuration: a 22-byte file with requested size 5120 maps with size
clamped down to 4096. -/
theorem size_adjust_witness :
    ((0:Int) ≤ 0 ∧ (0:Int) % 4096 = 0 ∧ (0:Int) ≤ file22.len ∧ (0:Int) < 5120)
    ∧ (construct 4096 "t" defaultMode 0 5120 none (some file22)).1.isMapped = true
    ∧ ((file22.len / 4096 + 1) * 4096 - 0 < 5120 →
        (construct 4096 "t" defaultMode 0 5120 none (some file22)).1.size
            = (file22.len / 4096 + 1) * 4096 - 0
        ∧ (construct 4096 "t" defaultMode 0 5120 none (some file22)).1.size < 5120)
    ∧ (5120 ≤ (file22.len / 4096 + 1) * 4096 - 0 →
        (construct 4096 "t" defaultMode 0 5120 none (some file22)).1.size = 5120) :=
  ⟨⟨by decide, by decide, by decide, by decide⟩,
   size_adjust 4096 "t" defaultMode 0 5120 none file22
     (by decide) (by decide) (by decide) (by decide)⟩

/-- Counterexample to claim C2 as stated: at the testAutoAdjustedSize001
configuration (22-byte file, offset 0, requested size 5120) the map
succeeds but Size() is 4096, strictly LESS than the requested size — the
size is decreased, not increased. -/
theorem size_adjust_counterexample :
    (construct 4096 "t" defaultMode 0 5120 none (some file22)).1.isMapped = true
    ∧ (construct 4096 "t" defaultMode 0 5120 none (some file22)).1.size = 4096
    ∧ ¬ (5120 ≤ (construct 4096 "t" defaultMode 0 5120 none (some file22)).1.size) := by
  decide

/-- Any integer is below the next page boundary. -/
theorem lt_page_bound (n p : Int) (hp : 0 < p) : n < (n / p + 1) * p := by
  have h2 := Int.ediv_add_emod n p
  have h1 : n % p < p := Int.emod_lt_of_pos n hp
  have h3 : (n / p + 1) * p = p * (n / p) + p := by ring
  rw [h3]
  linarith

/-- The successful branch of the size-validation step. -/
theorem normSize_ok (p : Int) (st : MappedFile) (f : File)
    (h2 : ¬ (f.len < st.offset)) :
    normSize p st f
      = (ErrCode.ok,
         { st with size := adjSize p st.offset st.size f.len,
                   isNormed := true, fd := some 3 },
         some f) := by
  unfold normSize
  rw [if_neg h2]

/-- The successful run of Normalize on an existing file. -/
theorem normalizeOp_ok (p : Int) (st : MappedFile) (f : File)
    (hs1 : ¬ (st.size ≠ DEFAULT_LENGTH ∧ st.size ≤ 0))
    (h1 : ¬ (st.offset < 0 ∨ st.offset % p ≠ 0))
    (h2 : ¬ (f.len < st.offset)) :
    normalizeOp p st (some f)
      = (ErrCode.ok,
         { st with size := adjSize p st.offset st.size f.len,
                   isNormed := true, fd := some 3 },
         some f) := by
  unfold normalizeOp
  rw [if_neg hs1, if_neg h1]
  exact normSize_ok p st f h2

/-- The successful run of Map through Normalize on an existing file. -/
theorem mapOp_ok_of_norm (p : Int) (st : MappedFile) (f : File)
    (hm : st.isMapped = false) (hn : st.isNormed = false)
    (hs1 : ¬ (st.size ≠ DEFAULT_LENGTH ∧ st.size ≤ 0))
    (h1 : ¬ (st.offset < 0 ∨ st.offset % p ≠ 0))
    (h2 : ¬ (f.len < st.offset)) :
    mapOp p st (some f)
      = (ErrCode.ok,
         establish p { st with size := adjSize p st.offset st.size f.len,
                               isNormed := true, fd := some 3 },
         some f) := by
  unfold mapOp
  rw [if_neg (by simp [hm]), if_neg (by simp [hn])]
  simp only [normalizeOp_ok p st f hs1 h1 h2]
  simp

/-- A store through the view at a position past the substantial file size
leaves the file untouched. -/
theorem writeThrough_past_eof (st : MappedFile) (f : File) (i v : Int)
    (hcon : ¬ (st.offset + i < f.len)) :
    writeThrough st (some f) i v = some f := by
  simp only [writeThrough]
  exact if_neg (fun h => hcon h.2.2.2.2.2)

/-- A store through a shared writable view at a position inside the file
is persisted. -/
theorem writeThrough_hits (st : MappedFile) (f : File) (i v : Int)
    (h1 : st.isMapped = true) (h2 : st.mode.privateMode = false)
    (h3 : st.mode.readOnly = false) (h4 : 0 ≤ i) (h5 : i < st.size)
    (h6 : st.offset + i < f.len) (h0 : st.offset = 0) :
    ∃ f2, writeThrough st (some f) i v = some f2 ∧ f2.byteAt i = v := by
  refine ⟨{ len := f.len,
            byteAt := fun j => if j = st.offset + i then v else f.byteAt j },
          ?_, ?_⟩
  · simp only [writeThrough]
    exact if_pos ⟨h1, h2, h3, h4, h5, h6⟩
  · show (if i = st.offset + i then v else f.byteAt i) = v
    rw [if_pos (by omega)]

/-- Claim C4: on a mapped instance (offset 0, DEFAULT mode), for a
requested size n past the substantial file size, Resize(n) with the sync
flag left at its default false succeeds and grows the mapped view past
the file: the on-disk file is untouched and its length stays strictly
smaller than Size(), and a byte stored through the view at a position at
or past EOF is not persisted.  Resize(n, true) also succeeds and forces
the on-disk length to equal the new Size(), after which a byte stored in
the formerly extended region is persisted to the file. -/
theorem resize_sync_semantics (p : Int) (st : MappedFile) (f : File) (n v : Int)
    (hp : 0 < p) (hm : st.isMapped = true) (hoff : st.offset = 0)
    (hmode : st.mode = defaultMode) (hf0 : 0 ≤ f.len) (hgrow : f.len < n) :
    (resize p st (some f) n false).1 = ErrCode.ok
    ∧ (resize p st (some f) n false).2.1.isMapped = true
    ∧ (resize p st (some f) n false).2.2 = some f
    ∧ f.len < (resize p st (some f) n false).2.1.size
    ∧ (∀ i, f.len ≤ i →
        writeThrough (resize p st (some f) n false).2.1 (some f) i v = some f)
    ∧ (resize p st (some f) n true).1 = ErrCode.ok
    ∧ (resize p st (some f) n true).2.1.isMapped = true
    ∧ (resize p st (some f) n true).2.1.size = n
    ∧ (∃ f1, (resize p st (some f) n true).2.2 = some f1 ∧ f1.len = n
        ∧ (∀ i, f.len ≤ i → i < n →
            ∃ f2, writeThrough (resize p st (some f) n true).2.1 (some f1) i v
                = some f2 ∧ f2.byteAt i = v)) := by
  have hunm : (unmap st).2
      = { st with isMapped := false, regionFileOff := 0, regionLen := 0,
                  regionAddr := 0 } := by
    unfold unmap
    rw [if_pos hm]
  have hnd : n ≠ DEFAULT_LENGTH := by
    simp only [DEFAULT_LENGTH]
    omega
  have hpage_f : f.len < (f.len / p + 1) * p := lt_page_bound f.len p hp
  have hpage_n : n < (n / p + 1) * p := lt_page_bound n p hp
  have key0 : resize p st (some f) n false
      = mapOp p { st with size := n, isNormed := false, isMapped := false,
                          regionFileOff := 0, regionLen := 0, regionAddr := 0 }
          (some f) := by
    unfold resize
    rw [hunm]
    rfl
  have key1 : resize p st (some f) n true
      = mapOp p { st with size := n, isNormed := false, isMapped := false,
                          regionFileOff := 0, regionLen := 0, regionAddr := 0 }
          (some (setLen f (st.offset + n))) := by
    unfold resize
    rw [hunm]
    rfl
  have e0 := mapOp_ok_of_norm p
    { st with size := n, isNormed := false, isMapped := false,
              regionFileOff := 0, regionLen := 0, regionAddr := 0 } f
    rfl rfl (by simp only [DEFAULT_LENGTH]; omega)
    (by simp [hoff])
    (by simp [hoff]; omega)
  have e1 := mapOp_ok_of_norm p
    { st with size := n, isNormed := false, isMapped := false,
              regionFileOff := 0, regionLen := 0, regionAddr := 0 }
    (setLen f (st.offset + n))
    rfl rfl (by simp only [DEFAULT_LENGTH]; omega)
    (by simp [hoff])
    (by simp [setLen, hoff]; omega)
  have hadj0 : adjSize p st.offset n f.len = min n ((f.len / p + 1) * p) := by
    simp [adjSize, reqSize, hoff, hnd]
  have hadj1 : adjSize p st.offset n (st.offset + n) = n := by
    simp only [adjSize, reqSize, hoff, if_neg hnd]
    simp
    omega
  refine ⟨?_, ?_, ?_, ?_, ?_, ?_, ?_, ?_, ?_⟩
  · rw [key0, e0]
  · rw [key0, e0]
    rfl
  · rw [key0, e0]
  · rw [key0, e0]
    show f.len < adjSize p st.offset n f.len
    rw [hadj0]
    exact lt_min hgrow hpage_f
  · intro i hi
    rw [key0, e0]
    exact writeThrough_past_eof _ f i v
      (by show ¬ (st.offset + i < f.len); omega)
  · rw [key1, e1]
  · rw [key1, e1]
    rfl
  · rw [key1, e1]
    show adjSize p st.offset n (st.offset + n) = n
    exact hadj1
  · rw [key1, e1]
    refine ⟨setLen f (st.offset + n), rfl, by show st.offset + n = n; omega, ?_⟩
    intro i hi1 hi2
    apply writeThrough_hits
    · rfl
    · show st.mode.privateMode = false
      rw [hmode]
      rfl
    · show st.mode.readOnly = false
      rw [hmode]
      rfl
    · omega
    · show i < adjSize p st.offset n (st.offset + n)
      rw [hadj1]
      exact hi2
    · show st.offset + i < st.offset + n
      omega
    · exact hoff

/-- Witness for C4: resizing the default mapping of the 23-byte file to 33
bytes, with and without syncing the file length. -/
theorem resize_sync_semantics_witness :
    ((0:Int) < 4096 ∧ st23.isMapped = true ∧ st23.offset = 0
      ∧ st23.mode = defaultMode ∧ (0:Int) ≤ file23.len ∧ file23.len < 33)
    ∧ (resize 4096 st23 (some file23) 33 false).1 = ErrCode.ok
    ∧ (resize 4096 st23 (some file23) 33 false).2.1.isMapped = true
    ∧ (resize 4096 st23 (some file23) 33 false).2.2 = some file23
    ∧ file23.len < (resize 4096 st23 (some file23) 33 false).2.1.size
    ∧ (∀ i, file23.len ≤ i →
        writeThrough (resize 4096 st23 (some file23) 33 false).2.1
          (some file23) i 69 = some file23)
    ∧ (resize 4096 st23 (some file23) 33 true).1 = ErrCode.ok
    ∧ (resize 4096 st23 (some file23) 33 true).2.1.isMapped = true
    ∧ (resize 4096 st23 (some file23) 33 true).2.1.size = 33
    ∧ (∃ f1, (resize 4096 st23 (some file23) 33 true).2.2 = some f1 ∧ f1.len = 33
        ∧ (∀ i, file23.len ≤ i → i < 33 →
            ∃ f2, writeThrough (resize 4096 st23 (some file23) 33 true).2.1
                (some f1) i 69 = some f2 ∧ f2.byteAt i = 69)) :=
  ⟨⟨by decide, by decide, by decide, by decide, by decide, by decide⟩,
   resize_sync_semantics 4096 st23 file23 33 69 (by decide) (by decide) (by decide)
     (by decide) (by decide) (by decide)⟩
